import Mathlib

/-!
Verification development for the Lexington development-updates bot
(`src/lexington_dev_updates.py`).

The script's meaningful logic is (a) a tolerant JSON-array extraction routine
inlined in `LexingtonDevBot.call_openai_agent` (lines 118-145), (b) the Slack
message formatter `format_slack_message` (lines 154-168), (c) the run control
flow `run` (lines 202-228), and (d) the constructor's environment check
`__init__` (lines 18-27).  Network calls and the OpenAI client are external
collaborators; they are modelled as inputs to the functions that consume their
results.

`json.loads` is modelled by an executable recursive-descent JSON parser over
the character list of the input.  Model simplifications, all irrelevant to the
claims under study: numbers are modelled as integers (fraction and exponent
parts are not modelled, and leading zeros are accepted), string escapes cover
the common single-character escapes but not hexadecimal escape forms, and an object is
modelled as its member list in parse order (Python dicts deduplicate repeated
keys; no input considered here repeats a key).  The parser is structurally
recursive on an explicit fuel argument so that every definition evaluates
inside the kernel; the fuel supplied by `json_loads` exceeds the nesting depth
of any input, so it never runs out on inputs whose length bounds their depth.
-/

/-- A parsed JSON value, as produced by the model of `json.loads`. -/
inductive JValue where
  | null : JValue
  | bool (b : Bool) : JValue
  | num (n : Int) : JValue
  | str (s : String) : JValue
  | arr (items : List JValue) : JValue
  | obj (fields : List (String × JValue)) : JValue
deriving Repr

/-- Whitespace characters skipped by the JSON parser. -/
def isJsonWs (c : Char) : Bool :=
  c = ' ' || c = '\t' || c = '\n' || c = '\r'

/-- Drop leading JSON whitespace from a character list. -/
def skipWs : List Char → List Char
  | [] => []
  | c :: rest => if isJsonWs c then skipWs rest else c :: rest

/-- Parse the body of a JSON string literal (the opening quote already
consumed), accumulating characters in reverse. -/
def parseStringBody (acc : List Char) : List Char → Except String (String × List Char)
  | [] => .error "Unterminated string"
  | '"' :: rest => .ok (String.mk acc.reverse, rest)
  | '\\' :: e :: rest =>
    if e = '"' then parseStringBody ('"' :: acc) rest
    else if e = '\\' then parseStringBody ('\\' :: acc) rest
    else if e = '/' then parseStringBody ('/' :: acc) rest
    else if e = 'n' then parseStringBody ('\n' :: acc) rest
    else if e = 't' then parseStringBody ('\t' :: acc) rest
    else if e = 'r' then parseStringBody ('\r' :: acc) rest
    else if e = 'b' then parseStringBody (Char.ofNat 8 :: acc) rest
    else if e = 'f' then parseStringBody (Char.ofNat 12 :: acc) rest
    else .error "Unsupported escape"
  | '\\' :: [] => .error "Unterminated string"
  | c :: rest => parseStringBody (c :: acc) rest

/-- Parse a maximal run of decimal digits, extending the accumulator. -/
def parseDigits (acc : Nat) : List Char → Nat × List Char
  | [] => (acc, [])
  | c :: rest =>
    if c.isDigit then parseDigits (acc * 10 + (c.toNat - 48)) rest
    else (acc, c :: rest)

/-- One step of the array-element loop: `pv` parses a single value; the loop
consumes elements separated by commas until a closing bracket. -/
def parseElemsAux (pv : List Char → Except String (JValue × List Char)) :
    Nat → List Char → List JValue → Except String (JValue × List Char)
  | 0, _, _ => .error "Fuel exhausted"
  | fuel + 1, cs, acc =>
    match pv cs with
    | .ok (v, afterVal) =>
      match skipWs afterVal with
      | ',' :: more => parseElemsAux pv fuel more (v :: acc)
      | ']' :: more => .ok (JValue.arr (v :: acc).reverse, more)
      | _ => .error "Expecting comma or closing bracket"
    | .error e => .error e

/-- One step of the object-member loop: `pv` parses a single value; the loop
consumes string-key members separated by commas until a closing brace. -/
def parseMembersAux (pv : List Char → Except String (JValue × List Char)) :
    Nat → List Char → List (String × JValue) → Except String (JValue × List Char)
  | 0, _, _ => .error "Fuel exhausted"
  | fuel + 1, cs, acc =>
    match skipWs cs with
    | '"' :: afterQuote =>
      match parseStringBody [] afterQuote with
      | .ok (k, afterKey) =>
        match skipWs afterKey with
        | ':' :: afterColon =>
          match pv afterColon with
          | .ok (v, afterVal) =>
            match skipWs afterVal with
            | ',' :: more => parseMembersAux pv fuel more ((k, v) :: acc)
            | '}' :: more => .ok (JValue.obj ((k, v) :: acc).reverse, more)
            | _ => .error "Expecting comma or closing brace"
          | .error e => .error e
        | _ => .error "Expecting colon"
      | .error e => .error e
    | _ => .error "Expecting property name"

/-- Strip an expected literal tail (the rest of `null`, `true` or `false`)
from the front of the character list. -/
def stripLit (lit : List Char) (cs : List Char) : Option (List Char) :=
  if List.isPrefixOf lit cs then some (cs.drop lit.length) else none

/-- Parse one JSON value from the character list, returning the value and the
unconsumed remainder.  Structurally recursive on the fuel, which bounds the
bracket-nesting depth. -/
def parseValue : Nat → List Char → Except String (JValue × List Char)
  | 0, _ => .error "Fuel exhausted"
  | fuel + 1, cs =>
    match skipWs cs with
    | [] => .error "Expecting value"
    | '{' :: rest =>
      match skipWs rest with
      | '}' :: r2 => .ok (JValue.obj [], r2)
      | cs2 => parseMembersAux (parseValue fuel) (cs2.length + 1) cs2 []
    | '[' :: rest =>
      match skipWs rest with
      | ']' :: r2 => .ok (JValue.arr [], r2)
      | cs2 => parseElemsAux (parseValue fuel) (cs2.length + 1) cs2 []
    | '"' :: rest =>
      match parseStringBody [] rest with
      | .error e => .error e
      | .ok (s, r) => .ok (JValue.str s, r)
    | 'n' :: rest =>
      match stripLit ['u', 'l', 'l'] rest with
      | some r => .ok (JValue.null, r)
      | none => .error "Expecting value"
    | 't' :: rest =>
      match stripLit ['r', 'u', 'e'] rest with
      | some r => .ok (JValue.bool true, r)
      | none => .error "Expecting value"
    | 'f' :: rest =>
      match stripLit ['a', 'l', 's', 'e'] rest with
      | some r => .ok (JValue.bool false, r)
      | none => .error "Expecting value"
    | '-' :: c :: rest =>
      if c.isDigit then
        match parseDigits (c.toNat - 48) rest with
        | (n, r) => .ok (JValue.num (-(n : Int)), r)
      else .error "Expecting value"
    | c :: rest =>
      if c.isDigit then
        match parseDigits (c.toNat - 48) rest with
        | (n, r) => .ok (JValue.num (n : Int), r)
      else .error "Expecting value"

/-- Model of Python `json.loads`: parse one JSON value and require that only
whitespace remains (Python reports anything further as "Extra data"). -/
def json_loads (s : String) : Except String JValue :=
  match parseValue (s.length + 1) s.data with
  | .error e => .error e
  | .ok (v, rest) =>
    match skipWs rest with
    | [] => .ok v
    | _ => .error "Extra data"

/-- Model of Python `str.find(c)`: index of the first occurrence of `c`
(`none` standing for Python's `-1`). -/
def strFind (s : String) (c : Char) : Option Nat :=
  s.data.findIdx? (fun x => x = c)

/-- Model of Python `str.rfind(c)`: index of the last occurrence of `c`
(`none` standing for Python's `-1`). -/
def strRFind (s : String) (c : Char) : Option Nat :=
  match s.data.reverse.findIdx? (fun x => x = c) with
  | none => none
  | some i => some (s.data.length - 1 - i)

/-- Model of the Python slice `s[a:b]` for `0 ≤ a` and `0 ≤ b` (an empty
string when `a ≥ b`, exactly as in Python). -/
def pySlice (s : String) (a b : Nat) : String :=
  String.mk ((s.data.drop a).take (b - a))

/-- First list-valued entry of an object's member list, or `[]` when there is
none: the loop `for key, value in parsed_content.items(): if isinstance(value,
list): return value` followed by `return []` (lines 136-140). -/
def firstListValueD : List (String × JValue) → List JValue
  | [] => []
  | (_, JValue.arr xs) :: _ => xs
  | _ :: rest => firstListValueD rest

/-- The whole-text strategy of `call_openai_agent` (lines 130-140 together
with the `except` handler of lines 142-145): parse the entire response text;
a list is returned directly, a dict yields its first list-valued entry, and
everything else — including a parse error — yields `[]`. -/
def wholeFallback (content : String) : List JValue :=
  match json_loads content with
  | .ok (JValue.arr xs) => xs
  | .ok (JValue.obj kvs) => firstListValueD kvs
  | .ok _ => []
  | .error _ => []

/-- The JSON-extraction routine inlined in `call_openai_agent` (lines
118-145), the spec's ResponseExtractor.  `start_idx = content.find('[')`,
`end_idx = content.rfind(']') + 1`; when both exist the slice between them is
parsed — a successful parse to a list is returned, while a `JSONDecodeError`
lands in the `except` handler, which returns `[]`.  Only when one of the
brackets is missing (or the slice parses to a non-list, which cannot happen
for a slice beginning with a bracket) does control reach the whole-text
strategy of lines 130-140. -/
def responseExtractor (content : String) : List JValue :=
  match strFind content '[', strRFind content ']' with
  | some s, some e =>
    match json_loads (pySlice content s (e + 1)) with
    | .ok (JValue.arr xs) => xs
    | .ok _ => wholeFallback content
    | .error _ => []
  | _, _ => wholeFallback content

/-- First list-valued entry of an object's member list, as an `Option`.
Claim-side companion of `firstListValueD`. -/
def firstListValue? : List (String × JValue) → Option (List JValue)
  | [] => none
  | (_, JValue.arr xs) :: _ => some xs
  | _ :: rest => firstListValue? rest

/-- What the bracket-slice strategy yields: `some xs` when both brackets exist
and the slice between them parses as the JSON array `xs`, `none` otherwise
(no brackets, or a slice that fails to parse). -/
def bracketYields (content : String) : Option (List JValue) :=
  match strFind content '[', strRFind content ']' with
  | some s, some e =>
    match json_loads (pySlice content s (e + 1)) with
    | .ok (JValue.arr xs) => some xs
    | _ => none
  | _, _ => none

/-- What the whole-text strategy yields: the parsed list itself, or a dict's
first list-valued entry, `none` otherwise. -/
def wholeYields (content : String) : Option (List JValue) :=
  match json_loads content with
  | .ok (JValue.arr xs) => some xs
  | .ok (JValue.obj kvs) => firstListValue? kvs
  | _ => none

/-- A record as consumed by the formatter: a key-value mapping with text
fields (the spec's UpdateRecord; field access is `item.get(key, default)`). -/
abbrev Record := List (String × String)

/-- Model of Python `item.get(key, default)`. -/
def pyGet (item : Record) (key deflt : String) : String :=
  (List.lookup key item).getD deflt

/-- The literal returned by `format_slack_message` for an empty result list
(line 157). -/
def noUpdatesMessage : String :=
  ":no_entry_sign: No significant new development updates in Lexington in the past 14 days."

/-- The header line initialising the message for a non-empty result list
(line 159). -/
def slackHeader : String :=
  ":construction: *Lexington Development Updates*\n\n"

/-- The bullet line appended for one record (lines 162-166):
`f"• *\x7btitle\x7d* — \x7bsummary\x7d  <\x7burl\x7d|Read more>\n"` with defaults
`'No title'`, `'No summary'`, `'#'`. -/
def formatItem (item : Record) : String :=
  "• *" ++ pyGet item "title" "No title" ++ "* — " ++ pyGet item "summary" "No summary"
    ++ "  <" ++ pyGet item "url" "#" ++ "|Read more>\n"

/-- `LexingtonDevBot.format_slack_message` (lines 154-168): the no-updates
literal for an empty list, otherwise the header followed by one bullet line
per record, accumulated by `message += ...`. -/
def format_slack_message (results : List Record) : String :=
  if results.isEmpty then noUpdatesMessage
  else results.foldl (fun message item => message ++ formatItem item) slackHeader

/-- The configuration held by a constructed bot: the three environment values
stored by `__init__` (lines 19-21). -/
structure BotConfig where
  openai_api_key : Option String
  slack_bot_token : Option String
  slack_channel_id : Option String

/-- Python truthiness of an `os.getenv` result: `None` and the empty string
are falsy, every other string is truthy. -/
def pyTruthy : Option String → Bool
  | none => false
  | some s => !s.isEmpty

/-- The `ValueError` message raised by `__init__` (line 24). -/
def missingEnvMessage : String :=
  "Missing required environment variables. Please set OPENAI_API_KEY, SLACK_BOT_TOKEN, and SLACK_CHANNEL_ID."

/-- `LexingtonDevBot.__init__` (lines 18-27): read the three environment
values, and raise `ValueError` unless all three are truthy
(`if not all([...])`).  The OpenAI client is only constructed on the
successful branch; the failing branch performs no network activity. -/
def lexingtonDevBotInit (openai_api_key slack_bot_token slack_channel_id : Option String) :
    Except String BotConfig :=
  if pyTruthy openai_api_key && pyTruthy slack_bot_token && pyTruthy slack_channel_id then
    .ok ⟨openai_api_key, slack_bot_token, slack_channel_id⟩
  else
    .error missingEnvMessage

/-- `LexingtonDevBot.run` (lines 202-228), with the two external collaborators
as inputs: `results` is what `call_openai_agent` returned (`none` is the
failure sentinel of lines 150-152), and `postOk` is what `post_to_slack`
would report for the message.  The output is the message handed to
`post_to_slack` (`none` when the run aborts before posting) paired with the
run's boolean outcome. -/
def runBot (results : Option (List Record)) (postOk : Bool) : Option String × Bool :=
  match results with
  | none => (none, false)
  | some rs => (some (format_slack_message rs), postOk)

example : json_loads "[1, 2]" = .ok (JValue.arr [JValue.num 1, JValue.num 2]) := by rfl
example : json_loads " \x7b\"a\": [true, null]\x7d " =
    .ok (JValue.obj [("a", JValue.arr [JValue.bool true, JValue.null])]) := by rfl
example : json_loads "hello" = .error "Expecting value" := by rfl
example : json_loads "[1], \"x\": \"]" = .error "Extra data" := by rfl
example : json_loads "\x7b\"results\": [1], \"x\": \"]\"\x7d" =
    .ok (JValue.obj [("results", JValue.arr [JValue.num 1]), ("x", JValue.str "]")]) := by rfl

example : responseExtractor "" = [] := by rfl

/-- The concatenation of the bullet lines of a record list, in order: the
body that the `for item in results` loop of lines 161-166 appends after the
header. -/
def concatLines : List Record → String
  | [] => ""
  | r :: rs => formatItem r ++ concatLines rs

/-- Split a character list into its newline-separated lines. -/
def splitLines : List Char → List (List Char)
  | [] => [[]]
  | '\n' :: rest => [] :: splitLines rest
  | c :: rest =>
    match splitLines rest with
    | [] => [[c]]
    | l :: ls => (c :: l) :: ls

/-- Number of lines of a string that start with the bullet marker used by
`formatItem`. -/
def bulletLineCount (s : String) : Nat :=
  ((splitLines s.data).filter (fun l => List.isPrefixOf ['•', ' '] l)).length

/-- Whether a record's value in an object member list is a JSON list. -/
def isListValue : String × JValue → Bool
  | (_, JValue.arr _) => true
  | _ => false

/-- Whether the pattern occurs as a contiguous run inside the character
list. -/
def listContains (pat : List Char) : List Char → Bool
  | [] => pat.isEmpty
  | c :: rest => List.isPrefixOf pat (c :: rest) || listContains pat rest

/-- Whether `pat` occurs as a substring of `s`. -/
def strContains (s pat : String) : Bool :=
  listContains pat.data s.data

theorem string_append_assoc (a b c : String) : a ++ b ++ c = a ++ (b ++ c) := by
  apply String.ext
  simp [List.append_assoc]

theorem firstListValueD_eq_nil (kvs : List (String × JValue))
    (h : firstListValue? kvs = none) : firstListValueD kvs = [] := by
  induction kvs with
  | nil => rfl
  | cons hd tl ih =>
    obtain ⟨k, v⟩ := hd
    cases v <;> simp [firstListValueD, firstListValue?] at h ⊢ <;> exact ih h

theorem wholeFallback_eq_nil (content : String)
    (h : wholeYields content = none) : wholeFallback content = [] := by
  unfold wholeFallback
  unfold wholeYields at h
  cases hj : json_loads content with
  | error e => rfl
  | ok v =>
    cases v with
    | arr xs => rw [hj] at h; exact absurd h (by simp)
    | obj kvs => rw [hj] at h; exact firstListValueD_eq_nil kvs h
    | null => rfl
    | bool b => rfl
    | num n => rfl
    | str s => rfl

theorem foldl_formatItem (rs : List Record) (init : String) :
    rs.foldl (fun message item => message ++ formatItem item) init = init ++ concatLines rs := by
  induction rs generalizing init with
  | nil => simp [concatLines, String.append_empty]
  | cons r rest ih =>
    simp only [List.foldl_cons, concatLines]
    rw [ih, string_append_assoc]

theorem pyGet_none (r : Record) (key d : String) (h : List.lookup key r = none) :
    pyGet r key d = d := by
  unfold pyGet
  rw [h]
  rfl

/-- C1: for every input text whose substring from the first open bracket to
the last close bracket inclusive parses as a JSON array, the extraction
routine returns exactly that array's parsed elements, regardless of the
surrounding prose. -/
theorem c1_bracket_slice_extraction (content : String) (s e : Nat) (xs : List JValue)
    (hs : strFind content '[' = some s) (he : strRFind content ']' = some e)
    (hp : json_loads (pySlice content s (e + 1)) = Except.ok (JValue.arr xs)) :
    responseExtractor content = xs := by
  simp [responseExtractor, hs, he, hp]

/-- Witness for C1: a concrete prose-wrapped array is extracted. -/
theorem c1_witness : responseExtractor "Here: [1] ok" = [JValue.num 1] :=
  c1_bracket_slice_extraction "Here: [1] ok" 6 8 [JValue.num 1] rfl rfl rfl

theorem responseExtractor_eq_fallback (content : String)
    (h : strFind content '[' = none ∨ strRFind content ']' = none) :
    responseExtractor content = wholeFallback content := by
  unfold responseExtractor
  rcases h with h | h
  · rw [h]
  · rw [h]
    cases strFind content '[' <;> rfl

/-- C4 as stated: when neither extraction strategy yields a list (including
every parse failure), the routine returns the empty list.  The routine is a
total function, so no exception escapes it on any input. -/
theorem c4_no_strategy_empty (content : String)
    (h1 : bracketYields content = none) (h2 : wholeYields content = none) :
    responseExtractor content = [] := by
  cases hf : strFind content '[' with
  | none =>
    rw [responseExtractor_eq_fallback content (Or.inl hf)]
    exact wholeFallback_eq_nil content h2
  | some s =>
    cases hr : strRFind content ']' with
    | none =>
      rw [responseExtractor_eq_fallback content (Or.inr hr)]
      exact wholeFallback_eq_nil content h2
    | some e =>
      cases hj : json_loads (pySlice content s (e + 1)) with
      | error msg => simp [responseExtractor, hf, hr, hj]
      | ok v =>
        cases v with
        | arr xs => simp [bracketYields, hf, hr, hj] at h1
        | null =>
          simp only [responseExtractor, hf, hr, hj]
          exact wholeFallback_eq_nil content h2
        | bool b =>
          simp only [responseExtractor, hf, hr, hj]
          exact wholeFallback_eq_nil content h2
        | num n =>
          simp only [responseExtractor, hf, hr, hj]
          exact wholeFallback_eq_nil content h2
        | str t =>
          simp only [responseExtractor, hf, hr, hj]
          exact wholeFallback_eq_nil content h2
        | obj kvs =>
          simp only [responseExtractor, hf, hr, hj]
          exact wholeFallback_eq_nil content h2

/-- Witness for C4: plain prose with no brackets and invalid JSON yields the
empty list. -/
theorem c4_witness : responseExtractor "hello" = [] :=
  c4_no_strategy_empty "hello" rfl rfl

/-- C2 counterexample: on a record with no `url` key the formatter does not
omit the link segment — the rendered message contains the hyperlink segment
`<#|Read more>`, with the `'#'` default of line 164 as the URL. -/
theorem c2_counterexample :
    List.lookup "url" [("title", "A"), ("summary", "B")] = (none : Option String) ∧
    format_slack_message [[("title", "A"), ("summary", "B")]]
      = slackHeader ++ "• *A* — B  <#|Read more>\n" ∧
    strContains (format_slack_message [[("title", "A"), ("summary", "B")]]) "<#|Read more>"
      = true :=
  ⟨rfl, rfl, by decide⟩

/-- C2 amended: a record with no `url` key still renders its title and
summary, but the link segment is not omitted — it is rendered with the
placeholder URL `'#'`; a link segment appears on every line. -/
theorem c2_missing_url_placeholder_link (r : Record)
    (h : List.lookup "url" r = none) :
    formatItem r = "• *" ++ pyGet r "title" "No title" ++ "* — "
      ++ pyGet r "summary" "No summary" ++ "  <" ++ "#" ++ "|Read more>\n" := by
  unfold formatItem
  rw [pyGet_none r "url" "#" h]

/-- Witness for the amended C2 at a concrete url-less record. -/
theorem c2_witness :
    formatItem [("title", "A"), ("summary", "B")] = "• *A* — B  <#|Read more>\n" :=
  (c2_missing_url_placeholder_link [("title", "A"), ("summary", "B")] rfl).trans (by rfl)

/-- C3 counterexample: on this input the bracket-slice strategy fails (the
slice from the first open bracket to the last close bracket is not valid
JSON), the whole text parses as a dict whose first list-valued entry is
`[1]`, yet the routine returns `[]`: the `JSONDecodeError` raised while
parsing the slice lands in the `except` handler of lines 142-145, so the
whole-text parse of line 131 is never attempted. -/
theorem c3_counterexample :
    bracketYields "\x7b\"results\": [1], \"x\": \"]\"\x7d" = none ∧
    wholeYields "\x7b\"results\": [1], \"x\": \"]\"\x7d" = some [JValue.num 1] ∧
    responseExtractor "\x7b\"results\": [1], \"x\": \"]\"\x7d" = [] :=
  ⟨rfl, rfl, rfl⟩

/-- C3 amended: the whole-text strategy (parse the entire text; a list is
returned directly, a dict yields its first list-valued entry in iteration
order) is attempted only when the text lacks an open bracket or lacks a close
bracket; when the bracket slice exists but fails to parse as JSON, the
routine returns the empty list without attempting the whole-text parse. -/
theorem c3_fallback_only_without_brackets :
    (∀ content : String,
      strFind content '[' = none ∨ strRFind content ']' = none →
      responseExtractor content = wholeFallback content) ∧
    (∀ (content : String) (s e : Nat) (msg : String),
      strFind content '[' = some s → strRFind content ']' = some e →
      json_loads (pySlice content s (e + 1)) = Except.error msg →
      responseExtractor content = []) := by
  constructor
  · intro content h
    exact responseExtractor_eq_fallback content h
  · intro content s e msg hs he hj
    simp [responseExtractor, hs, he, hj]

/-- Witness for the amended C3: bracketless prose falls back to the
whole-text strategy, while a failing slice short-circuits to the empty
list. -/
theorem c3_witness :
    responseExtractor "hello there" = wholeFallback "hello there" ∧
    responseExtractor "a ] b [ c" = [] :=
  ⟨c3_fallback_only_without_brackets.1 "hello there" (Or.inl rfl),
   c3_fallback_only_without_brackets.2 "a ] b [ c" 6 2 "Expecting value" rfl rfl rfl⟩

/-- C5: a `None` from `call_openai_agent` (the failure sentinel of lines
150-152) aborts the run with no message handed to `post_to_slack` and an
overall `False`; an empty record list instead proceeds and posts the
no-updates message, the run's outcome being whatever the posting call
reports. -/
theorem c5_sentinel_aborts_empty_posts :
    (∀ postOk : Bool, runBot none postOk = (none, false)) ∧
    (∀ postOk : Bool, runBot (some []) postOk = (some noUpdatesMessage, postOk)) :=
  ⟨fun _ => rfl, fun _ => rfl⟩

/-- C6 counterexample: this input is a bare JSON object whose only
list-valued key is `"items"` with value `[1]`, yet the routine returns `[]`
rather than `[1]`: the stray close bracket inside the string value of `"b"`
makes the bracket slice `[1], "b": "]` unparseable, and the resulting
`JSONDecodeError` returns `[]` from the `except` handler. -/
theorem c6_counterexample :
    json_loads "\x7b\"items\": [1], \"b\": \"]\"\x7d"
      = Except.ok (JValue.obj [("items", JValue.arr [JValue.num 1]), ("b", JValue.str "]")]) ∧
    responseExtractor "\x7b\"items\": [1], \"b\": \"]\"\x7d" = [] ∧
    ([] : List JValue) ≠ [JValue.num 1] :=
  ⟨rfl, rfl, fun h => List.noConfusion h⟩

/-- C6 amended: for a bare JSON object with exactly one list-valued key the
routine returns that key's list provided the substring from the first open
bracket to the last close bracket itself parses as that list (as happens
whenever no other value smuggles in a bracket character); it is the
bracket-slice strategy, not the dict scan, that produces the result. -/
theorem c6_single_list_key (content : String) (kvs : List (String × JValue))
    (k : String) (xs : List JValue) (s e : Nat)
    (_hobj : json_loads content = Except.ok (JValue.obj kvs))
    (_huniq : kvs.filter isListValue = [(k, JValue.arr xs)])
    (hs : strFind content '[' = some s) (he : strRFind content ']' = some e)
    (hslice : json_loads (pySlice content s (e + 1)) = Except.ok (JValue.arr xs)) :
    responseExtractor content = xs := by
  simp [responseExtractor, hs, he, hslice]

/-- Witness for the amended C6 at a concrete single-list-key object. -/
theorem c6_witness : responseExtractor "\x7b\"items\": [1]\x7d" = [JValue.num 1] :=
  c6_single_list_key "\x7b\"items\": [1]\x7d" [("items", JValue.arr [JValue.num 1])]
    "items" [JValue.num 1] 10 12 rfl rfl rfl rfl rfl

/-- C7: if any of the three required environment values is absent, the
constructor raises the configuration `ValueError` before any network
activity: the error branch is taken before the OpenAI client of line 27 is
constructed, and `main` (lines 231-238) catches it and returns without
contacting any service. -/
theorem c7_missing_env_fails (k t c : Option String)
    (h : k = none ∨ t = none ∨ c = none) :
    lexingtonDevBotInit k t c = Except.error missingEnvMessage := by
  unfold lexingtonDevBotInit
  rcases h with h | h | h <;> subst h <;> simp [pyTruthy]

/-- Witness for C7: a missing API key is fatal at construction. -/
theorem c7_witness :
    lexingtonDevBotInit none (some "xoxb-token") (some "C123") = Except.error missingEnvMessage :=
  c7_missing_env_fails none (some "xoxb-token") (some "C123") (Or.inl rfl)

/-- C8: the formatter maps the empty record list to the fixed no-updates
literal of line 157. -/
theorem c8_empty_no_updates :
    format_slack_message [] =
      ":no_entry_sign: No significant new development updates in Lexington in the past 14 days." :=
  rfl

/-- C9: a record with no `title` key renders the `'No title'` default of line
162 in the title position, and a record with no `summary` key renders the
`'No summary'` default of line 163 in the summary position. -/
theorem c9_title_summary_defaults (r : Record) :
    (List.lookup "title" r = none →
      formatItem r = "• *" ++ "No title" ++ "* — " ++ pyGet r "summary" "No summary"
        ++ "  <" ++ pyGet r "url" "#" ++ "|Read more>\n") ∧
    (List.lookup "summary" r = none →
      formatItem r = "• *" ++ pyGet r "title" "No title" ++ "* — " ++ "No summary"
        ++ "  <" ++ pyGet r "url" "#" ++ "|Read more>\n") := by
  constructor
  · intro h
    unfold formatItem
    rw [pyGet_none r "title" "No title" h]
  · intro h
    unfold formatItem
    rw [pyGet_none r "summary" "No summary" h]

/-- Witness for C9 at concrete records missing one key each. -/
theorem c9_witness :
    formatItem [("summary", "S"), ("url", "u")] = "• *No title* — S  <u|Read more>\n" ∧
    formatItem [("title", "T"), ("url", "u")] = "• *T* — No summary  <u|Read more>\n" :=
  ⟨((c9_title_summary_defaults [("summary", "S"), ("url", "u")]).1 rfl).trans (by rfl),
   ((c9_title_summary_defaults [("title", "T"), ("url", "u")]).2 rfl).trans (by rfl)⟩

/-- C10 counterexample: the formatter is total, but a record whose title
contains a newline followed by a bullet marker makes the rendered message
contain two lines starting with the bullet marker for a single record, so
the message does not contain exactly one bullet line per record. -/
theorem c10_counterexample :
    bulletLineCount (format_slack_message [[("title", "A\n• B")]]) = 2 ∧
    ([[("title", "A\n• B")]] : List Record).length = 1 :=
  ⟨rfl, rfl⟩

/-- C10 amended: on every non-empty record list the formatter returns the
fixed header followed by the concatenation, in input order, of one
newline-terminated bullet segment per record, each beginning with the bullet
marker; bullet segments correspond one-to-one with records, though a field
value embedding a newline and a bullet marker can make the rendered text
contain more bullet-initial lines than records.  The formatter is a total
function, so it returns a string on every record list. -/
theorem c10_header_and_bullets (rs : List Record) (h : rs ≠ []) :
    format_slack_message rs = slackHeader ++ concatLines rs ∧
    ∀ r ∈ rs, ∃ tail, formatItem r = "• " ++ tail := by
  constructor
  · have hne : rs.isEmpty = false := by
      cases rs with
      | nil => exact absurd rfl h
      | cons a l => rfl
    unfold format_slack_message
    rw [hne]
    simp only [Bool.false_eq_true, if_false]
    exact foldl_formatItem rs slackHeader
  · intro r _
    refine ⟨"*" ++ (pyGet r "title" "No title" ++ ("* — " ++ (pyGet r "summary" "No summary"
      ++ ("  <" ++ (pyGet r "url" "#" ++ "|Read more>\n"))))), ?_⟩
    unfold formatItem
    simp only [string_append_assoc]
    rw [← string_append_assoc "• " "*"]
    rfl

/-- Witness for the amended C10 at a concrete two-record list. -/
theorem c10_witness :
    format_slack_message [[("title", "T")], []]
      = slackHeader ++ concatLines [[("title", "T")], []] ∧
    format_slack_message [[("title", "T")], []]
      = slackHeader ++ "• *T* — No summary  <#|Read more>\n"
        ++ "• *No title* — No summary  <#|Read more>\n" :=
  ⟨(c10_header_and_bullets [[("title", "T")], []] (List.cons_ne_nil _ _)).1,
   ((c10_header_and_bullets [[("title", "T")], []] (List.cons_ne_nil _ _)).1).trans (by rfl)⟩
